import Mathlib

/-!
Verification of the HackRF One driver core (`crates/hackrf-one-rs/src/lib.rs`).

The driver is embedded shallowly:

* machine integers (`u8`, `u16`, `u32`, `u64`) become `Nat` with explicit
  bounds / truncation where overflow or casts matter;
* the USB transport (`nusb`) becomes an explicit `Transport` record of
  response functions, and every driver operation additionally returns the
  list of USB operations it issued (`List UsbAction`), in order;
* the atomic `Mode` field becomes an explicit `Mode` value threaded through
  the state-changing operations (the CAS of `atomic_enum` becomes a
  test-and-set on that value);
* Rust `Result<T, Error>` becomes `RunResult`, which also has a `panicked`
  outcome so that `panic!` / `.expect(...)` sites are observable;
* the `f32` arithmetic in `set_sample_rate` is modelled by exact rational
  arithmetic with IEEE-754 single-precision rounding (round to nearest,
  ties to even) applied after every operation, as the hardware does.
-/

namespace HackRfOne

/-- `enum Mode { Idle = 0, Receive, Transmit }` (an `atomic_enum` in the
source; the atomicity is modelled by threading the value explicitly). -/
inductive Mode where
  | idle
  | receive
  | transmit
deriving DecidableEq, Repr

/-- `pub struct UsbVersion(pub u8, pub u8, pub u8)`: major, minor, sub-minor. -/
structure UsbVersion where
  major : Nat
  minor : Nat
  sub_minor : Nat
deriving DecidableEq, Repr

/-- `pub struct Config { ... }`: the parameters applied by `start_tx` /
`start_rx`. Gains are `u16`, the frequency is `u64`, sample rate and divisor
are `u32`. -/
structure Config where
  vga_db : Nat
  txvga_db : Nat
  lna_db : Nat
  power_port_enable : Bool
  antenna_enable : Bool
  frequency_hz : Nat
  sample_rate_hz : Nat
  sample_rate_div : Nat
deriving DecidableEq, Repr

/-- `Config::tx_default()`. -/
def Config.tx_default : Config where
  vga_db := 0
  lna_db := 0
  txvga_db := 40
  power_port_enable := false
  antenna_enable := false
  frequency_hz := 908000000
  sample_rate_hz := 2500000
  sample_rate_div := 1

/-- `Config::rx_default()`. -/
def Config.rx_default : Config where
  vga_db := 24
  lna_db := 0
  txvga_db := 0
  power_port_enable := false
  antenna_enable := false
  frequency_hz := 908000000
  sample_rate_hz := 2500000
  sample_rate_div := 1

/-- `pub enum Error { ... }`.  `Io` and `Transfer` wrap foreign error values
whose content the driver never inspects, so they are modelled without
payload. `Argument`'s `&'static str` payload is kept. -/
inductive Error where
  | io
  | transfer
  | transferTruncated (actual : Nat) (expected : Nat)
  | noApi (device : UsbVersion) (min : UsbVersion)
  | argument (msg : String)
  | wrongMode (required : Mode) (actual : Mode)
  | notFound
deriving DecidableEq, Repr

/-- Outcome of running a driver operation: Rust `Ok`, Rust `Err`, or a
`panic!` / `.expect` abort (which in Rust is not a value at all; it is made
a value here so that panics are observable facts about the embedding). -/
inductive RunResult (α : Type) where
  | ok (a : α)
  | err (e : Error)
  | panicked (msg : String)
deriving DecidableEq, Repr

/-- The `Request` opcodes used by the operations under verification
(`#[repr(u8)] enum Request`; variants not exercised by any claim are
omitted, their discriminants are unchanged). -/
inductive Request where
  | setTransceiverMode
  | sampleRateSet
  | basebandFilterBandwidthSet
  | boardIdRead
  | versionStringRead
  | setFreq
  | ampEnable
  | setLnaGain
  | setVgaGain
  | setTxvgaGain
  | antennaEnable
  | reset
deriving DecidableEq, Repr

/-- The `u8` discriminant of each request (`Request as u8`). -/
def Request.code : Request → Nat
  | .setTransceiverMode => 1
  | .sampleRateSet => 6
  | .basebandFilterBandwidthSet => 7
  | .boardIdRead => 14
  | .versionStringRead => 15
  | .setFreq => 16
  | .ampEnable => 17
  | .setLnaGain => 19
  | .setVgaGain => 20
  | .setTxvgaGain => 21
  | .antennaEnable => 23
  | .reset => 30

/-- `#[repr(u16)] enum TransceiverMode` discriminants. -/
def transceiverModeOff : Nat := 0
/-- `TransceiverMode::Receive as u16`. -/
def transceiverModeReceive : Nat := 1
/-- `TransceiverMode::Transmit as u16`. -/
def transceiverModeTransmit : Nat := 2

/-- One USB operation issued to the transport, recorded in order.  The
vocabulary also has `claimInterface` (nusb `Device::claim_interface`) so
that claims about interface claiming are expressible; in the source the
interface is claimed once in `HackRf::open`. -/
inductive UsbAction where
  | controlIn (request : Nat) (value : Nat) (index : Nat) (length : Nat)
  | controlOut (request : Nat) (value : Nat) (index : Nat) (data : List Nat)
  | bulkIn (endpoint : Nat) (length : Nat)
  | bulkOut (endpoint : Nat) (data : List Nat)
  | claimInterface (index : Nat)
deriving DecidableEq, Repr

/-- Whether an action is an interface claim. -/
def UsbAction.isClaimInterface : UsbAction → Bool
  | .claimInterface _ => true
  | _ => false

/-- The USB transport (nusb `Interface`), as deterministic response
functions. `controlIn` answers a vendor control-in request with the
returned bytes, `controlOut` with the actual number of bytes written,
`bulkIn` with the bytes read from an endpoint, `bulkOut` with the actual
number of bytes written to an endpoint.  An `Except.error` models a
`nusb::transfer::TransferError`, which `?` converts into `Error::Transfer`. -/
structure Transport where
  controlIn : Nat → Nat → Nat → Nat → Except Unit (List Nat)
  controlOut : Nat → Nat → Nat → List Nat → Except Unit Nat
  bulkIn : Nat → Nat → Except Unit (List Nat)
  bulkOut : Nat → List Nat → Except Unit Nat

/-- `u32::MAX`. -/
def u32Max : Nat := 4294967295

/-- `u64::MAX`. -/
def u64Max : Nat := 18446744073709551615

/-- `u32::try_from(n).unwrap_or(u32::MAX)`. -/
def saturate_u32 (n : Nat) : Nat := min n u32Max

/-- The four little-endian bytes of a `u32` (`(x & 0xFF) as u8`,
`((x >> 8) & 0xFF) as u8`, ...). -/
def le4 (n : Nat) : List Nat :=
  [n % 256, n / 256 % 256, n / 65536 % 256, n / 16777216 % 256]

/-- `fn freq_params(hz: u64) -> [u8; 8]` — the helper for `set_freq`.
Splits `hz` into whole megahertz and the hertz remaining after the encoded
megahertz field, each saturated to `u32::MAX` and packed little-endian. -/
def freq_params (hz : Nat) : List Nat :=
  let mhz : Nat := 1000000
  let l_freq_mhz := saturate_u32 (hz / mhz)
  let l_freq_hz := saturate_u32 (hz - l_freq_mhz * mhz)
  le4 l_freq_mhz ++ le4 l_freq_hz

/-! ### IEEE-754 single-precision model

`set_sample_rate` computes the baseband filter bandwidth in `f32`
arithmetic: `(0.75 * (hz as f32) / (div as f32)) as u32`.  Every `f32`
value arising in that expression is finite, nonnegative and far inside the
normal range (the operands are at most `2^32` and, when nonzero, at least
`0.75 / 2^32`), so the model represents each value as an exact nonnegative
fraction `(numerator, denominator)` of naturals and rounds to 24
significant binary digits after every operation — round to nearest, ties
to even — never needing subnormals, overflow or negative values. -/

/-- `⌊log₂ n⌋` for `n ≥ 1` by fuelled halving (fuel 128 covers every
number below `2^128`; every value in this file is far smaller). -/
def log2floorAux : Nat → Nat → Nat
  | 0, _ => 0
  | fuel + 1, n => if n < 2 then 0 else 1 + log2floorAux fuel (n / 2)

/-- `⌊log₂ n⌋` for `n ≥ 1`. -/
def log2floor (n : Nat) : Nat := log2floorAux 128 n

/-- `⌈log₂ n⌉` for `n ≥ 1` by fuelled halving. -/
def clog2Aux : Nat → Nat → Nat
  | 0, _ => 0
  | fuel + 1, n => if n ≤ 1 then 0 else 1 + clog2Aux fuel ((n + 1) / 2)

/-- `⌈log₂ n⌉` for `n ≥ 1`. -/
def clog2 (n : Nat) : Nat := clog2Aux 128 n

/-- `⌊log₂ (p / q)⌋` for `p, q ≥ 1`: for `p ≥ q` it is `⌊log₂ ⌊p/q⌋⌋`,
otherwise `-⌈log₂ ⌈q/p⌉⌉`. -/
def floorLog2Frac (p q : Nat) : ℤ :=
  if q ≤ p then (log2floor (p / q) : ℤ)
  else -(clog2 ((q + p - 1) / p) : ℤ)

/-- Round `p / q` (with `q ≥ 1`) to the nearest integer, ties to even. -/
def roundHalfEvenFrac (p q : Nat) : Nat :=
  let n := p / q
  let r := p % q
  if 2 * r < q then n
  else if 2 * r > q then n + 1
  else if n % 2 = 0 then n else n + 1

/-- Round the nonnegative fraction `p / q` (with `q ≥ 1`) to the nearest
`f32` value — 24-bit significand, round to nearest, ties to even — and
return that value as an exact fraction.  The significand `m` is the
rounding of `(p/q) / 2^(e-23)` where `e = ⌊log₂ (p/q)⌋`, and the value is
`m · 2^(e-23)`. -/
def roundFracPair (p q : Nat) : Nat × Nat :=
  if p = 0 then (0, 1)
  else
    let e := floorLog2Frac p q
    let m :=
      if 0 ≤ 23 - e then roundHalfEvenFrac (p * 2 ^ (23 - e).toNat) q
      else roundHalfEvenFrac p (q * 2 ^ (e - 23).toNat)
    if 23 ≤ e then (m * 2 ^ (e - 23).toNat, 1) else (m, 2 ^ (23 - e).toNat)

/-- The bandwidth argument computed by `set_sample_rate`:
`(0.75 * (hz as f32) / (div as f32)) as u32`.  Each conversion and
operation rounds to `f32` (`0.75` itself is exact); the `as u32` cast
truncates toward zero and saturates; `x / 0.0` is `+∞` for `x > 0` (the
cast saturates to `u32::MAX`) and NaN for `x = 0` (the cast yields `0`). -/
def f32BandwidthHz (hz div : Nat) : Nat :=
  let a := roundFracPair hz 1
  let b := roundFracPair (3 * a.1) (4 * a.2)
  let d := roundFracPair div 1
  if d.1 = 0 then
    if b.1 = 0 then 0 else u32Max
  else
    let c := roundFracPair (b.1 * d.2) (b.2 * d.1)
    c.1 / c.2

/-! ### Driver operations

Each operation returns its Rust result together with the ordered list of
USB operations it issued. -/

/-- Result of an operation plus the USB operations it issued, in order. -/
abbrev OpResult (α : Type) := RunResult α × List UsbAction

/-- Sequencing (Rust `?` on the first operation). -/
def opBind {α β : Type} (x : OpResult α) (f : α → OpResult β) : OpResult β :=
  match x with
  | (.ok a, tr) =>
    match f a with
    | (r, tr2) => (r, tr ++ tr2)
  | (.err e, tr) => (.err e, tr)
  | (.panicked m, tr) => (.panicked m, tr)

/-- `fn read_control<const N: usize>(&self, request, value, index) ->
Result<[u8; N]>`: a vendor control-in transfer whose response length must
be exactly `n`. -/
def read_control (t : Transport) (request : Request) (value index n : Nat) :
    OpResult (List Nat) :=
  let act := UsbAction.controlIn request.code value index n
  match t.controlIn request.code value index n with
  | .error _ => (.err .transfer, [act])
  | .ok buf =>
    if buf.length ≠ n then (.err (.transferTruncated buf.length n), [act])
    else (.ok buf, [act])

/-- `fn write_control(&self, request, value, index, buf) -> Result<()>`:
a vendor control-out transfer that must write exactly `buf.len()` bytes. -/
def write_control (t : Transport) (request : Request) (value index : Nat)
    (buf : List Nat) : OpResult Unit :=
  let act := UsbAction.controlOut request.code value index buf
  match t.controlOut request.code value index buf with
  | .error _ => (.err .transfer, [act])
  | .ok actual =>
    if actual ≠ buf.length then (.err (.transferTruncated actual buf.length), [act])
    else (.ok (), [act])

/-- `version_to_u32` (local helper inside `check_api_version`). -/
def version_to_u32 (v : UsbVersion) : Nat :=
  (v.major <<< 16) ||| (v.minor <<< 8) ||| v.sub_minor

/-- `fn check_api_version(&self, min: UsbVersion) -> Result<()>`;
`selfVersion` is the `version` field of the `HackRf` struct.  Pure: no
USB operation is issued either way. -/
def check_api_version (selfVersion min : UsbVersion) : Except Error Unit :=
  if version_to_u32 selfVersion ≥ version_to_u32 min then Except.ok ()
  else Except.error (Error.noApi selfVersion min)

/-- `UsbVersion::from_bcd(raw: u16)`: nibbles from the bottom are
sub-minor, minor, major; the remaining top nibble contributes `10 *` to
the major (all `u8` casts and additions stay below 256 here, the `% 256`
mirrors the casts). -/
def UsbVersion.from_bcd (raw : Nat) : UsbVersion :=
  let sub_minor := raw % 16
  let raw1 := raw / 16
  let minor := raw1 % 16
  let raw2 := raw1 / 16
  let major := raw2 % 16
  let raw3 := raw2 / 16
  { major := (major + (10 * raw3) % 256) % 256, minor := minor, sub_minor := sub_minor }

/-- `pub fn reset(self) -> Result<()>`: version-gated behind
`from_bcd(0x0102)`, then a `Reset` control write. -/
def reset (t : Transport) (selfVersion : UsbVersion) : OpResult Unit :=
  match check_api_version selfVersion (UsbVersion.from_bcd 0x0102) with
  | .error e => (.err e, [])
  | .ok _ => write_control t .reset 0 0 []

/-- `pub fn version(&self) -> Result<String>`: reads up to 64 bytes of
firmware version string; the transfer result is unwrapped with
`.expect("transfer failed?")`, so a transport failure panics.  The
`String::from_utf8_lossy` conversion is dropped: the result is the raw
bytes. -/
def version (t : Transport) : OpResult (List Nat) :=
  let act := UsbAction.controlIn Request.versionStringRead.code 0 0 64
  match t.controlIn Request.versionStringRead.code 0 0 64 with
  | .error _ => (.panicked "transfer failed?", [act])
  | .ok buf => (.ok buf, [act])

/-- `pub fn set_lna_gain(&self, gain: u16) -> Result<()>`: validates
`gain ≤ 40`, masks to 8 dB granularity (`gain & !0x07`), then issues a
1-byte control read and panics on a zero acknowledgement byte. -/
def set_lna_gain (t : Transport) (gain : Nat) : OpResult Unit :=
  if gain > 40 then (.err (.argument "lna gain must be less than 40"), [])
  else
    match read_control t .setLnaGain 0 (gain &&& 0xFFF8) 1 with
    | (.ok buf, tr) => if buf.headI = 0 then (.panicked "", tr) else (.ok (), tr)
    | (.err e, tr) => (.err e, tr)
    | (.panicked m, tr) => (.panicked m, tr)

/-- `pub fn set_vga_gain(&self, gain: u16) -> Result<()>`: validates
`gain ≤ 62` and even, masks the low bit (`gain & !0b1`), then issues a
1-byte control read and panics on a zero acknowledgement byte. -/
def set_vga_gain (t : Transport) (gain : Nat) : OpResult Unit :=
  if gain > 62 ∨ gain % 2 = 1 then
    (.err (.argument
      "gain parameter out of range. must be even and less than or equal to 62"), [])
  else
    match read_control t .setVgaGain 0 (gain &&& 0xFFFE) 1 with
    | (.ok buf, tr) =>
      if buf.headI = 0 then (.panicked "What is this return value?", tr)
      else (.ok (), tr)
    | (.err e, tr) => (.err e, tr)
    | (.panicked m, tr) => (.panicked m, tr)

/-- `pub fn set_txvga_gain(&self, gain: u16) -> Result<()>`: validates
`gain ≤ 47`, then issues a 1-byte control read (index is the unmasked
gain) and panics on a zero acknowledgement byte. -/
def set_txvga_gain (t : Transport) (gain : Nat) : OpResult Unit :=
  if gain > 47 then (.err (.argument "gain parameter out of range. max is 47"), [])
  else
    match read_control t .setTxvgaGain 0 gain 1 with
    | (.ok buf, tr) =>
      if buf.headI = 0 then (.panicked "What is this return value?", tr)
      else (.ok (), tr)
    | (.err e, tr) => (.err e, tr)
    | (.panicked m, tr) => (.panicked m, tr)

/-- `pub fn set_freq(&self, hz: u64) -> Result<()>`. -/
def set_freq (t : Transport) (hz : Nat) : OpResult Unit :=
  write_control t .setFreq 0 0 (freq_params hz)

/-- `pub fn set_amp_enable(&self, enable: bool) -> Result<()>`. -/
def set_amp_enable (t : Transport) (enable : Bool) : OpResult Unit :=
  write_control t .ampEnable (if enable then 1 else 0) 0 []

/-- `pub fn set_antenna_enable(&self, value: bool) -> Result<()>`. -/
def set_antenna_enable (t : Transport) (value : Bool) : OpResult Unit :=
  write_control t .antennaEnable (if value then 1 else 0) 0 []

/-- `pub fn set_baseband_filter_bandwidth(&self, hz: u32) -> Result<()>`:
`value` is the low 16 bits of `hz`, `index` the high 16 bits. -/
def set_baseband_filter_bandwidth (t : Transport) (hz : Nat) : OpResult Unit :=
  write_control t .basebandFilterBandwidthSet (hz &&& 0xFFFF) (hz >>> 16) []

/-- `pub fn set_sample_rate(&self, hz: u32, div: u32) -> Result<()>`:
one `SampleRateSet` write with `hz` then `div` little-endian, then the
dependent `BasebandFilterBandwidthSet` write with the `f32`-computed
bandwidth. -/
def set_sample_rate (t : Transport) (hz div : Nat) : OpResult Unit :=
  opBind (write_control t .sampleRateSet 0 0 (le4 hz ++ le4 div)) fun _ =>
    set_baseband_filter_bandwidth t (f32BandwidthHz hz div)

/-- `fn apply_config(&self, config: &Config) -> Result<()>`: the fixed
order is LNA gain, VGA gain, TX-VGA gain, frequency, amp enable, antenna
enable, sample rate. -/
def apply_config (t : Transport) (config : Config) : OpResult Unit :=
  opBind (set_lna_gain t config.lna_db) fun _ =>
  opBind (set_vga_gain t config.vga_db) fun _ =>
  opBind (set_txvga_gain t config.txvga_db) fun _ =>
  opBind (set_freq t config.frequency_hz) fun _ =>
  opBind (set_amp_enable t config.power_port_enable) fun _ =>
  opBind (set_antenna_enable t config.antenna_enable) fun _ =>
  set_sample_rate t config.sample_rate_hz config.sample_rate_div

/-- `AtomicMode::compare_exchange(current, new, ..)` on a mode field whose
present value is `mode`: on success returns `Ok(previous)` and the field
becomes `new`; on failure returns `Err(actual)` and the field is
unchanged. -/
def compare_exchange (mode current new : Mode) : Except Mode Mode × Mode :=
  if mode = current then (.ok mode, new) else (.error mode, mode)

/-- `fn ensure_mode(&self, expected: Mode) -> Result<()>`. -/
def ensure_mode (mode expected : Mode) : Except Error Unit :=
  if mode ≠ expected then Except.error (Error.wrongMode expected mode)
  else Except.ok ()

/-- `pub fn start_tx(&self, config: &Config) -> Result<()>`: CAS
`Idle → Transmit` first (failure returns `WrongMode{required: Idle,
actual}` with no I/O), then `apply_config`, then the
`SetTransceiverMode(Transmit)` control write.  (The `println!` debug line
is not a USB operation and is not modelled.)  Returns the result, the new
mode-field value and the issued USB operations. -/
def start_tx (t : Transport) (config : Config) (mode : Mode) :
    RunResult Unit × Mode × List UsbAction :=
  match compare_exchange mode .idle .transmit with
  | (.error actual, mode1) => (.err (.wrongMode .idle actual), mode1, [])
  | (.ok _, mode1) =>
    let r := opBind (apply_config t config) fun _ =>
      write_control t .setTransceiverMode transceiverModeTransmit 0 []
    (r.1, mode1, r.2)

/-- `pub fn start_rx(&self, config: &Config) -> Result<()>`: CAS
`Idle → Receive` first, then `apply_config`, then
`SetTransceiverMode(Receive)`. -/
def start_rx (t : Transport) (config : Config) (mode : Mode) :
    RunResult Unit × Mode × List UsbAction :=
  match compare_exchange mode .idle .receive with
  | (.error actual, mode1) => (.err (.wrongMode .idle actual), mode1, [])
  | (.ok _, mode1) =>
    let r := opBind (apply_config t config) fun _ =>
      write_control t .setTransceiverMode transceiverModeReceive 0 []
    (r.1, mode1, r.2)

/-- `pub fn stop_tx(&self) -> Result<()>`: the `SetTransceiverMode(Off)`
control write is issued first; only then the CAS `Transmit → Idle` (its
failure yields `WrongMode{required: Idle, actual}` — `required: Idle` is
what the source constructs). -/
def stop_tx (t : Transport) (mode : Mode) :
    RunResult Unit × Mode × List UsbAction :=
  match write_control t .setTransceiverMode transceiverModeOff 0 [] with
  | (.ok _, tr) =>
    match compare_exchange mode .transmit .idle with
    | (.error actual, mode1) => (.err (.wrongMode .idle actual), mode1, tr)
    | (.ok _, mode1) => (.ok (), mode1, tr)
  | (.err e, tr) => (.err e, mode, tr)
  | (.panicked m, tr) => (.panicked m, mode, tr)

/-- `pub fn stop_rx(&self) -> Result<()>`: `SetTransceiverMode(Off)`
first, then the CAS `Receive → Idle`. -/
def stop_rx (t : Transport) (mode : Mode) :
    RunResult Unit × Mode × List UsbAction :=
  match write_control t .setTransceiverMode transceiverModeOff 0 [] with
  | (.ok _, tr) =>
    match compare_exchange mode .receive .idle with
    | (.error actual, mode1) => (.err (.wrongMode .idle actual), mode1, tr)
    | (.ok _, mode1) => (.ok (), mode1, tr)
  | (.err e, tr) => (.err e, mode, tr)
  | (.panicked m, tr) => (.panicked m, mode, tr)

/-- `pub fn read(&self, samples: &mut [u8]) -> Result<usize>` (the spec's
`rx`): checks `ensure_mode(Receive)`, then panics unless the buffer length
is a multiple of 512, then a bulk-in transfer on endpoint `0x81`; returns
the number of bytes actually received.  Only the buffer length matters. -/
def read (t : Transport) (mode : Mode) (samplesLen : Nat) : OpResult Nat :=
  match ensure_mode mode .receive with
  | .error e => (.err e, [])
  | .ok _ =>
    if samplesLen % 512 ≠ 0 then (.panicked "samples must be a multiple of 512", [])
    else
      let act := UsbAction.bulkIn 0x81 samplesLen
      match t.bulkIn 0x81 samplesLen with
      | .error _ => (.err .transfer, [act])
      | .ok buf => (.ok buf.length, [act])

/-- `pub fn write(&self, samples: &[u8]) -> Result<usize>` (the spec's
`tx`): checks `ensure_mode(Transmit)`, then panics unless the buffer
length is a multiple of 512, then a bulk-out transfer on endpoint `0x02`;
returns the number of bytes actually sent. -/
def write (t : Transport) (mode : Mode) (samples : List Nat) : OpResult Nat :=
  match ensure_mode mode .transmit with
  | .error e => (.err e, [])
  | .ok _ =>
    if samples.length % 512 ≠ 0 then (.panicked "samples must be a multiple of 512", [])
    else
      let act := UsbAction.bulkOut 0x02 samples
      match t.bulkOut 0x02 samples with
      | .error _ => (.err .transfer, [act])
      | .ok n => (.ok n, [act])

/-! ### Concrete transports used in witnesses and counterexamples -/

/-- A transport on which every transfer succeeds with the expected length;
control reads answer `1` bytes (a non-zero acknowledgement). -/
def okTransport : Transport where
  controlIn := fun _ _ _ length => .ok (List.replicate length 1)
  controlOut := fun _ _ _ data => .ok data.length
  bulkIn := fun _ length => .ok (List.replicate length 0)
  bulkOut := fun _ data => .ok data.length

/-- A transport on which every transfer fails with a transport error. -/
def failTransport : Transport where
  controlIn := fun _ _ _ _ => .error ()
  controlOut := fun _ _ _ _ => .error ()
  bulkIn := fun _ _ => .error ()
  bulkOut := fun _ _ => .error ()

/-- A transport whose control reads answer all-zero bytes (a zero
acknowledgement byte for the gain setters). -/
def zeroAckTransport : Transport where
  controlIn := fun _ _ _ length => .ok (List.replicate length 0)
  controlOut := fun _ _ _ data => .ok data.length
  bulkIn := fun _ length => .ok (List.replicate length 0)
  bulkOut := fun _ data => .ok data.length

/-- A transport that always transfers exactly `k` bytes: control reads
answer `k` bytes regardless of the requested length, control writes report
`k` bytes written, bulk transfers likewise. -/
def shortTransport (k : Nat) : Transport where
  controlIn := fun _ _ _ _ => .ok (List.replicate k 1)
  controlOut := fun _ _ _ _ => .ok k
  bulkIn := fun _ _ => .ok (List.replicate k 1)
  bulkOut := fun _ _ => .ok k

/-! ### Helper lemmas -/

/-- A control read issues exactly one control-in transfer, whatever the
transport answers. -/
theorem read_control_trace (t : Transport) (req : Request) (value index n : Nat) :
    (read_control t req value index n).2 = [UsbAction.controlIn req.code value index n] := by
  unfold read_control
  cases h : t.controlIn req.code value index n with
  | error e => simp
  | ok buf => dsimp only; split <;> rfl

/-- A control write issues exactly one control-out transfer, whatever the
transport answers. -/
theorem write_control_trace (t : Transport) (req : Request) (value index : Nat)
    (buf : List Nat) :
    (write_control t req value index buf).2 = [UsbAction.controlOut req.code value index buf] := by
  unfold write_control
  cases h : t.controlOut req.code value index buf with
  | error e => simp
  | ok k => dsimp only; split <;> rfl

/-- On `okTransport`, an in-range LNA gain write succeeds with the single
masked control read. -/
theorem set_lna_gain_okT (gain : Nat) (h : gain ≤ 40) :
    set_lna_gain okTransport gain
      = (.ok (), [UsbAction.controlIn 19 0 (gain &&& 0xFFF8) 1]) := by
  unfold set_lna_gain read_control okTransport
  rw [if_neg (by omega)]
  simp [Request.code]

/-- On `okTransport`, an in-range even VGA gain write succeeds with the
single masked control read. -/
theorem set_vga_gain_okT (gain : Nat) (h1 : gain ≤ 62) (h2 : gain % 2 = 0) :
    set_vga_gain okTransport gain
      = (.ok (), [UsbAction.controlIn 20 0 (gain &&& 0xFFFE) 1]) := by
  unfold set_vga_gain read_control okTransport
  rw [if_neg (by omega)]
  simp [Request.code]

/-- On `okTransport`, an in-range TX-VGA gain write succeeds with the
single control read. -/
theorem set_txvga_gain_okT (gain : Nat) (h : gain ≤ 47) :
    set_txvga_gain okTransport gain
      = (.ok (), [UsbAction.controlIn 21 0 gain 1]) := by
  unfold set_txvga_gain read_control okTransport
  rw [if_neg (by omega)]
  simp [Request.code]

/-- On `okTransport`, `set_freq` succeeds with the single 8-byte write. -/
theorem set_freq_okT (hz : Nat) :
    set_freq okTransport hz = (.ok (), [UsbAction.controlOut 16 0 0 (freq_params hz)]) := by
  unfold set_freq write_control okTransport
  simp [Request.code]

/-- On `okTransport`, `set_amp_enable` succeeds with the single write. -/
theorem set_amp_enable_okT (b : Bool) :
    set_amp_enable okTransport b
      = (.ok (), [UsbAction.controlOut 17 (if b then 1 else 0) 0 []]) := by
  unfold set_amp_enable write_control okTransport
  simp [Request.code]

/-- On `okTransport`, `set_antenna_enable` succeeds with the single write. -/
theorem set_antenna_enable_okT (b : Bool) :
    set_antenna_enable okTransport b
      = (.ok (), [UsbAction.controlOut 23 (if b then 1 else 0) 0 []]) := by
  unfold set_antenna_enable write_control okTransport
  simp [Request.code]

/-- On `okTransport`, `set_sample_rate` succeeds with the `SampleRateSet`
write followed by the dependent `BasebandFilterBandwidthSet` write. -/
theorem set_sample_rate_okT (hz div : Nat) :
    set_sample_rate okTransport hz div
      = (.ok (), [UsbAction.controlOut 6 0 0 (le4 hz ++ le4 div),
                  UsbAction.controlOut 7 (f32BandwidthHz hz div &&& 0xFFFF)
                    (f32BandwidthHz hz div >>> 16) []]) := by
  unfold set_sample_rate set_baseband_filter_bandwidth write_control okTransport opBind
  simp [Request.code]

/-- On `okTransport`, `apply_config` applies the seven settings in the
fixed order when the gains are in range. -/
theorem apply_config_okT (config : Config) (h1 : config.lna_db ≤ 40)
    (h2 : config.vga_db ≤ 62) (h3 : config.vga_db % 2 = 0)
    (h4 : config.txvga_db ≤ 47) :
    apply_config okTransport config
      = (.ok (), [UsbAction.controlIn 19 0 (config.lna_db &&& 0xFFF8) 1,
                  UsbAction.controlIn 20 0 (config.vga_db &&& 0xFFFE) 1,
                  UsbAction.controlIn 21 0 config.txvga_db 1,
                  UsbAction.controlOut 16 0 0 (freq_params config.frequency_hz),
                  UsbAction.controlOut 17 (if config.power_port_enable then 1 else 0) 0 [],
                  UsbAction.controlOut 23 (if config.antenna_enable then 1 else 0) 0 [],
                  UsbAction.controlOut 6 0 0
                    (le4 config.sample_rate_hz ++ le4 config.sample_rate_div),
                  UsbAction.controlOut 7
                    (f32BandwidthHz config.sample_rate_hz config.sample_rate_div &&& 0xFFFF)
                    (f32BandwidthHz config.sample_rate_hz config.sample_rate_div >>> 16)
                    []]) := by
  unfold apply_config
  rw [set_lna_gain_okT _ h1, set_vga_gain_okT _ h2 h3, set_txvga_gain_okT _ h4,
    set_freq_okT, set_amp_enable_okT, set_antenna_enable_okT, set_sample_rate_okT]
  rfl

/-! ### Claim theorems -/

/-- **C4**: `freq_params` packs the whole-megahertz part as a little-endian
`u32` followed by the hertz remaining after the encoded megahertz field as
a little-endian `u32`; each field saturates to `u32::MAX` when it does not
fit in 32 bits; `freq_params 0 = [0;8]`, `freq_params u64::MAX = [0xFF;8]`,
and the 915 MHz examples hold. -/
theorem freq_params_encoding :
    (∀ hz : Nat, hz / 1000000 < 2 ^ 32 →
        freq_params hz = le4 (hz / 1000000) ++ le4 (hz % 1000000)) ∧
    (∀ hz : Nat, 2 ^ 32 * 1000000 ≤ hz →
        (freq_params hz).take 4 = [255, 255, 255, 255]) ∧
    (∀ hz : Nat, u32Max * 1000000 + 2 ^ 32 ≤ hz →
        (freq_params hz).drop 4 = [255, 255, 255, 255]) ∧
    freq_params 0 = [0, 0, 0, 0, 0, 0, 0, 0] ∧
    freq_params u64Max = [255, 255, 255, 255, 255, 255, 255, 255] ∧
    freq_params 915000000 = [0x93, 0x03, 0, 0, 0, 0, 0, 0] ∧
    freq_params 915000001 = [0x93, 0x03, 0, 0, 1, 0, 0, 0] := by
  refine ⟨?_, ?_, ?_, by decide, by decide, by decide, by decide⟩
  · intro hz h
    have e1 : saturate_u32 (hz / 1000000) = hz / 1000000 := by
      unfold saturate_u32 u32Max; omega
    have e2 : saturate_u32 (hz - hz / 1000000 * 1000000) = hz % 1000000 := by
      unfold saturate_u32 u32Max; omega
    simp only [freq_params]
    rw [e1, e2]
  · intro hz h
    have e1 : saturate_u32 (hz / 1000000) = u32Max := by
      unfold saturate_u32 u32Max; omega
    simp only [freq_params]
    rw [e1]
    rfl
  · intro hz h
    unfold u32Max at h
    have e1 : saturate_u32 (hz / 1000000) = u32Max := by
      unfold saturate_u32 u32Max; omega
    have e2 : saturate_u32 (hz - u32Max * 1000000) = u32Max := by
      unfold saturate_u32 u32Max; omega
    simp only [freq_params]
    rw [e1, e2]
    rfl

/-- Witness for `freq_params_encoding` at `hz = 915000001`. -/
theorem freq_params_encoding_witness :
    915000001 / 1000000 < 2 ^ 32 ∧
    freq_params 915000001 = le4 (915000001 / 1000000) ++ le4 (915000001 % 1000000) :=
  ⟨by decide, freq_params_encoding.1 915000001 (by decide)⟩

/-- **C1** (amended): `start_tx` (resp. `start_rx`) first test-and-sets the
mode from `Idle` to `Transmit` (resp. `Receive`); if the mode is not
`Idle` it returns `WrongMode{required: Idle, actual}` with no I/O and the
mode unchanged; only after winning the CAS does it apply the config in
the order LNA gain, VGA gain, TX-VGA gain, frequency, amplifier enable,
antenna-power enable, sample rate, then issue `SetTransceiverMode` with
code 2 (resp. 1) as its final USB operation.  No bulk-interface claim is
performed by either function. -/
theorem start_cas_config_mode_order :
    (∀ (t : Transport) (config : Config) (mode : Mode), mode ≠ .idle →
        start_tx t config mode = (.err (.wrongMode .idle mode), mode, []) ∧
        start_rx t config mode = (.err (.wrongMode .idle mode), mode, [])) ∧
    (∀ config : Config, config.lna_db ≤ 40 → config.vga_db ≤ 62 →
        config.vga_db % 2 = 0 → config.txvga_db ≤ 47 →
        start_tx okTransport config .idle
          = (.ok (), .transmit,
             [.controlIn 19 0 (config.lna_db &&& 0xFFF8) 1,
              .controlIn 20 0 (config.vga_db &&& 0xFFFE) 1,
              .controlIn 21 0 config.txvga_db 1,
              .controlOut 16 0 0 (freq_params config.frequency_hz),
              .controlOut 17 (if config.power_port_enable then 1 else 0) 0 [],
              .controlOut 23 (if config.antenna_enable then 1 else 0) 0 [],
              .controlOut 6 0 0 (le4 config.sample_rate_hz ++ le4 config.sample_rate_div),
              .controlOut 7
                (f32BandwidthHz config.sample_rate_hz config.sample_rate_div &&& 0xFFFF)
                (f32BandwidthHz config.sample_rate_hz config.sample_rate_div >>> 16) [],
              .controlOut 1 2 0 []]) ∧
        start_rx okTransport config .idle
          = (.ok (), .receive,
             [.controlIn 19 0 (config.lna_db &&& 0xFFF8) 1,
              .controlIn 20 0 (config.vga_db &&& 0xFFFE) 1,
              .controlIn 21 0 config.txvga_db 1,
              .controlOut 16 0 0 (freq_params config.frequency_hz),
              .controlOut 17 (if config.power_port_enable then 1 else 0) 0 [],
              .controlOut 23 (if config.antenna_enable then 1 else 0) 0 [],
              .controlOut 6 0 0 (le4 config.sample_rate_hz ++ le4 config.sample_rate_div),
              .controlOut 7
                (f32BandwidthHz config.sample_rate_hz config.sample_rate_div &&& 0xFFFF)
                (f32BandwidthHz config.sample_rate_hz config.sample_rate_div >>> 16) [],
              .controlOut 1 1 0 []])) := by
  constructor
  · intro t config mode h
    cases mode with
    | idle => exact absurd rfl h
    | receive => exact ⟨rfl, rfl⟩
    | transmit => exact ⟨rfl, rfl⟩
  · intro config h1 h2 h3 h4
    have hconf := apply_config_okT config h1 h2 h3 h4
    constructor
    · unfold start_tx
      rw [show compare_exchange Mode.idle Mode.idle Mode.transmit
            = (Except.ok Mode.idle, Mode.transmit) from rfl]
      rw [hconf]
      simp [opBind, write_control, okTransport, Request.code, transceiverModeTransmit]
    · unfold start_rx
      rw [show compare_exchange Mode.idle Mode.idle Mode.receive
            = (Except.ok Mode.idle, Mode.receive) from rfl]
      rw [hconf]
      simp [opBind, write_control, okTransport, Request.code, transceiverModeReceive]

/-- Witness for `start_cas_config_mode_order`: the wrong-mode branch at
`Receive` and the successful branch at `Config.tx_default`. -/
theorem start_cas_config_mode_order_witness :
    (Mode.receive ≠ Mode.idle ∧
      start_tx okTransport Config.tx_default .receive
        = (.err (.wrongMode .idle .receive), .receive, [])) ∧
    (Config.tx_default.lna_db ≤ 40 ∧
      (start_tx okTransport Config.tx_default .idle).2.1 = .transmit) :=
  ⟨⟨by decide,
    (start_cas_config_mode_order.1 okTransport Config.tx_default .receive (by decide)).1⟩,
   ⟨by decide, by
    rw [(start_cas_config_mode_order.2 Config.tx_default (by decide) (by decide)
      (by decide) (by decide)).1]⟩⟩

/-- C1 counterexample: on a fully concrete successful run, the trace of
`start_tx` from Idle ends with the `SetTransceiverMode(Transmit)` control
write and contains no interface claim; the claimed final
"claim the bulk data interface" step does not exist. -/
theorem start_tx_no_interface_claim :
    start_tx okTransport Config.tx_default .idle
      = (.ok (), .transmit,
         [.controlIn 19 0 0 1, .controlIn 20 0 0 1, .controlIn 21 0 40 1,
          .controlOut 16 0 0 [140, 3, 0, 0, 0, 0, 0, 0],
          .controlOut 17 0 0 [], .controlOut 23 0 0 [],
          .controlOut 6 0 0 [160, 37, 38, 0, 1, 0, 0, 0],
          .controlOut 7 39992 28 [],
          .controlOut 1 2 0 []]) ∧
    ((start_tx okTransport Config.tx_default .idle).2.2.all
        fun a => !a.isClaimInterface) = true :=
  ⟨by decide, by decide⟩

/-- **C2**: `stop_tx` (resp. `stop_rx`) sends `SetTransceiverMode(Off)`
first and only afterwards test-and-sets the mode from `Transmit` (resp.
`Receive`) back to `Idle`; with the mode not in the matching busy state
the call fails with `WrongMode`, the mode is unchanged and the Off request
was still sent; if the Off write itself fails the CAS never runs.  Hence
after `start_tx` from Idle the first `stop_tx` succeeds, a second fails
with `WrongMode`, and `stop_rx` fails with `WrongMode` in either order. -/
theorem stop_order_and_wrong_mode :
    (stop_tx okTransport .transmit = (.ok (), .idle, [.controlOut 1 0 0 []])) ∧
    (∀ mode : Mode, mode ≠ .transmit →
        stop_tx okTransport mode
          = (.err (.wrongMode .idle mode), mode, [.controlOut 1 0 0 []])) ∧
    (stop_rx okTransport .receive = (.ok (), .idle, [.controlOut 1 0 0 []])) ∧
    (∀ mode : Mode, mode ≠ .receive →
        stop_rx okTransport mode
          = (.err (.wrongMode .idle mode), mode, [.controlOut 1 0 0 []])) ∧
    (∀ (t : Transport) (mode : Mode), t.controlOut 1 0 0 [] = .error () →
        stop_tx t mode = (.err .transfer, mode, [.controlOut 1 0 0 []])) ∧
    ((start_tx okTransport Config.tx_default .idle).2.1 = .transmit ∧
      (stop_tx okTransport .transmit).1 = .ok () ∧
      (stop_tx okTransport .transmit).2.1 = .idle ∧
      (stop_tx okTransport .idle).1 = .err (.wrongMode .idle .idle) ∧
      (stop_rx okTransport .idle).1 = .err (.wrongMode .idle .idle) ∧
      (stop_rx okTransport .transmit).1 = .err (.wrongMode .idle .transmit)) := by
  refine ⟨by decide, ?_, by decide, ?_, ?_, by decide, by decide, by decide,
    by decide, by decide, by decide⟩
  · intro mode h
    cases mode with
    | transmit => exact absurd rfl h
    | idle => decide
    | receive => decide
  · intro mode h
    cases mode with
    | receive => exact absurd rfl h
    | idle => decide
    | transmit => decide
  · intro t mode h
    unfold stop_tx write_control
    rw [show Request.code .setTransceiverMode = 1 from rfl, show transceiverModeOff = 0 from rfl, h]

/-- Witness for `stop_order_and_wrong_mode`: `stop_tx` at `Idle`. -/
theorem stop_order_and_wrong_mode_witness :
    Mode.idle ≠ Mode.transmit ∧
    stop_tx okTransport .idle
      = (.err (.wrongMode .idle .idle), .idle, [.controlOut 1 0 0 []]) :=
  ⟨by decide, stop_order_and_wrong_mode.2.1 Mode.idle (by decide)⟩

/-- **C3**: `read` (rx) and `write` (tx) fail with
`WrongMode{required, actual}` before any bulk transfer when the mode does
not match; with the matching mode and a 512-multiple buffer length, the
bulk transfer uses endpoint `0x81` for rx (IN) and `0x02` for tx (OUT)
and the call returns the actual number of bytes transferred. -/
theorem rx_tx_mode_check_and_endpoints :
    (∀ (t : Transport) (mode : Mode) (len : Nat), mode ≠ .receive →
        read t mode len = (.err (.wrongMode .receive mode), [])) ∧
    (∀ (t : Transport) (len : Nat) (buf : List Nat), len % 512 = 0 →
        t.bulkIn 0x81 len = .ok buf →
        read t .receive len = (.ok buf.length, [.bulkIn 0x81 len])) ∧
    (∀ (t : Transport) (mode : Mode) (samples : List Nat), mode ≠ .transmit →
        write t mode samples = (.err (.wrongMode .transmit mode), [])) ∧
    (∀ (t : Transport) (samples : List Nat) (n : Nat), samples.length % 512 = 0 →
        t.bulkOut 0x02 samples = .ok n →
        write t .transmit samples = (.ok n, [.bulkOut 0x02 samples])) := by
  refine ⟨?_, ?_, ?_, ?_⟩
  · intro t mode len h
    cases mode with
    | receive => exact absurd rfl h
    | idle => rfl
    | transmit => rfl
  · intro t len buf h1 h2
    unfold read
    rw [show ensure_mode Mode.receive Mode.receive = Except.ok () from rfl]
    dsimp only
    rw [if_neg (by omega), h2]
  · intro t mode samples h
    cases mode with
    | transmit => exact absurd rfl h
    | idle => rfl
    | receive => rfl
  · intro t samples n h1 h2
    unfold write
    rw [show ensure_mode Mode.transmit Mode.transmit = Except.ok () from rfl]
    dsimp only
    rw [if_neg (by omega), h2]

/-- Witness for `rx_tx_mode_check_and_endpoints`: a wrong-mode rx call and
a successful 512-byte rx and tx on `okTransport`. -/
theorem rx_tx_mode_check_and_endpoints_witness :
    (Mode.transmit ≠ Mode.receive ∧
      read okTransport .transmit 512 = (.err (.wrongMode .receive .transmit), [])) ∧
    (512 % 512 = 0 ∧ read okTransport .receive 512 = (.ok 512, [.bulkIn 0x81 512])) ∧
    (List.replicate 512 7).length % 512 = 0 ∧
    write okTransport .transmit (List.replicate 512 7)
      = (.ok 512, [.bulkOut 0x02 (List.replicate 512 7)]) :=
  ⟨⟨by decide, rx_tx_mode_check_and_endpoints.1 okTransport .transmit 512 (by decide)⟩,
   ⟨by decide, by
    have h := rx_tx_mode_check_and_endpoints.2.1 okTransport 512 (List.replicate 512 0)
      (by decide) rfl
    rw [List.length_replicate] at h
    exact h⟩,
   by rw [List.length_replicate],
   by
    exact rx_tx_mode_check_and_endpoints.2.2.2 okTransport (List.replicate 512 7) 512
      (by rw [List.length_replicate])
      (by rw [show okTransport.bulkOut 2 (List.replicate 512 7)
                = Except.ok (List.replicate 512 7).length from rfl,
              List.length_replicate])⟩

/-- **C10**: in `read` and `write` the mode precondition is checked before
the 512-byte alignment precondition: for a misaligned buffer and a
non-matching mode the result is the `WrongMode` error, not the panic. -/
theorem mode_checked_before_alignment :
    (∀ (t : Transport) (mode : Mode) (len : Nat), len % 512 ≠ 0 → mode ≠ .receive →
        read t mode len = (.err (.wrongMode .receive mode), [])) ∧
    (∀ (t : Transport) (mode : Mode) (samples : List Nat),
        samples.length % 512 ≠ 0 → mode ≠ .transmit →
        write t mode samples = (.err (.wrongMode .transmit mode), [])) := by
  constructor
  · intro t mode len h512 h
    cases mode with
    | receive => exact absurd rfl h
    | idle => rfl
    | transmit => rfl
  · intro t mode samples h512 h
    cases mode with
    | transmit => exact absurd rfl h
    | idle => rfl
    | receive => rfl

/-- Witness for `mode_checked_before_alignment`: a 5-byte buffer with the
radio idle. -/
theorem mode_checked_before_alignment_witness :
    (5 % 512 ≠ 0 ∧ Mode.idle ≠ Mode.receive ∧
      read okTransport .idle 5 = (.err (.wrongMode .receive .idle), [])) ∧
    ([0, 1, 2].length % 512 ≠ 0 ∧ Mode.idle ≠ Mode.transmit ∧
      write okTransport .idle [0, 1, 2] = (.err (.wrongMode .transmit .idle), [])) :=
  ⟨⟨by decide, by decide,
    mode_checked_before_alignment.1 okTransport .idle 5 (by decide) (by decide)⟩,
   ⟨by decide, by decide,
    mode_checked_before_alignment.2 okTransport .idle [0, 1, 2] (by decide) (by decide)⟩⟩

/-- **C5**: each gain setter validates its argument before any I/O:
`set_lna_gain` returns `Argument` for every gain above 40 (in-range gains
are masked to 8 dB granularity on the wire), `set_vga_gain` returns
`Argument` for every odd gain and every gain above 62, `set_txvga_gain`
returns `Argument` for every gain above 47; in every out-of-range case
zero transfers are issued. -/
theorem gain_setters_validate_first :
    (∀ (t : Transport) (gain : Nat), 40 < gain →
        set_lna_gain t gain = (.err (.argument "lna gain must be less than 40"), [])) ∧
    (∀ (t : Transport) (gain : Nat), gain ≤ 40 →
        (set_lna_gain t gain).2 = [.controlIn 19 0 (gain &&& 0xFFF8) 1]) ∧
    (∀ (t : Transport) (gain : Nat), 62 < gain ∨ gain % 2 = 1 →
        set_vga_gain t gain
          = (.err (.argument
              "gain parameter out of range. must be even and less than or equal to 62"),
             [])) ∧
    (∀ (t : Transport) (gain : Nat), 47 < gain →
        set_txvga_gain t gain
          = (.err (.argument "gain parameter out of range. max is 47"), [])) := by
  refine ⟨?_, ?_, ?_, ?_⟩
  · intro t gain h
    unfold set_lna_gain
    rw [if_pos h]
  · intro t gain h
    unfold set_lna_gain
    rw [if_neg (by omega)]
    have ht := read_control_trace t .setLnaGain 0 (gain &&& 0xFFF8) 1
    rcases hr : read_control t .setLnaGain 0 (gain &&& 0xFFF8) 1 with ⟨r, tr⟩
    rw [hr] at ht
    cases r with
    | ok buf => dsimp only; split <;> simpa [Request.code] using ht
    | err e => simpa [Request.code] using ht
    | panicked m => simpa [Request.code] using ht
  · intro t gain h
    unfold set_vga_gain
    rw [if_pos h]
  · intro t gain h
    unfold set_txvga_gain
    rw [if_pos h]

/-- Witness for `gain_setters_validate_first` at gains 41, 8, 63, 48. -/
theorem gain_setters_validate_first_witness :
    (40 < 41 ∧ set_lna_gain failTransport 41
      = (.err (.argument "lna gain must be less than 40"), [])) ∧
    (8 ≤ 40 ∧ (set_lna_gain failTransport 8).2 = [.controlIn 19 0 8 1]) ∧
    ((62 < 63 ∨ 63 % 2 = 1) ∧ set_vga_gain failTransport 63
      = (.err (.argument
          "gain parameter out of range. must be even and less than or equal to 62"),
         [])) ∧
    (47 < 48 ∧ set_txvga_gain failTransport 48
      = (.err (.argument "gain parameter out of range. max is 47"), [])) :=
  ⟨⟨by decide, gain_setters_validate_first.1 failTransport 41 (by decide)⟩,
   ⟨by decide, by
    have := gain_setters_validate_first.2.1 failTransport 8 (by decide)
    simpa using this⟩,
   ⟨by decide, gain_setters_validate_first.2.2.1 failTransport 63 (by decide)⟩,
   ⟨by decide, gain_setters_validate_first.2.2.2 failTransport 48 (by decide)⟩⟩

/-- **C6** (amended): `set_sample_rate(hz, div)` issues exactly one
`SampleRateSet` control write whose 8-byte payload is `hz` then `div`,
each little-endian, followed by exactly one `BasebandFilterBandwidthSet`
control write (value = low 16 bits, index = high 16 bits) whose 32-bit Hz
value is the `f32` evaluation of `0.75 * hz / div` truncated to `u32`;
for `set_sample_rate(8_000_000, 1)` that value is exactly
`floor(0.75 * 8_000_000) = 6_000_000`. -/
theorem set_sample_rate_two_writes :
    (∀ hz div : Nat,
        set_sample_rate okTransport hz div
          = (.ok (), [.controlOut 6 0 0 (le4 hz ++ le4 div),
                      .controlOut 7 (f32BandwidthHz hz div &&& 0xFFFF)
                        (f32BandwidthHz hz div >>> 16) []])) ∧
    f32BandwidthHz 8000000 1 = 6000000 ∧
    3 * 8000000 / (4 * 1) = 6000000 ∧
    set_sample_rate okTransport 8000000 1
      = (.ok (), [.controlOut 6 0 0 (le4 8000000 ++ le4 1),
                  .controlOut 7 36224 91 []]) ∧
    91 * 65536 + 36224 = 6000000 :=
  ⟨set_sample_rate_okT, by decide, by decide, by decide, by decide⟩

/-- C6 counterexample: at `hz = 33554439`, `div = 1` the bandwidth written
is `384 * 65536 + 6 = 25165830` (the `f32` result: `33554439` rounds to
the `f32` `33554440`), while `floor(0.75 * 33554439 / 1) = 25165829`. -/
theorem sample_rate_bandwidth_not_exact_floor :
    set_sample_rate okTransport 33554439 1
      = (.ok (), [.controlOut 6 0 0 (le4 33554439 ++ le4 1),
                  .controlOut 7 6 384 []]) ∧
    384 * 65536 + 6 = 25165830 ∧
    3 * 33554439 / (4 * 1) = 25165829 :=
  ⟨by decide, by decide, by decide⟩

/-- **C7** (amended): `read_control` (expected length `n`) and
`write_control` (payload `data`) check the actual transferred count; on
mismatch they return `TransferTruncated{actual, expected}` carrying both
counts rather than silently truncating; on an exact-length transfer
`read_control` returns the bytes and `write_control` returns success. -/
theorem control_transfer_length_check :
    (∀ (t : Transport) (req : Request) (value index n : Nat) (buf : List Nat),
        t.controlIn req.code value index n = .ok buf → buf.length ≠ n →
        read_control t req value index n
          = (.err (.transferTruncated buf.length n),
             [.controlIn req.code value index n])) ∧
    (∀ (t : Transport) (req : Request) (value index n : Nat) (buf : List Nat),
        t.controlIn req.code value index n = .ok buf → buf.length = n →
        read_control t req value index n
          = (.ok buf, [.controlIn req.code value index n])) ∧
    (∀ (t : Transport) (req : Request) (value index : Nat) (data : List Nat) (k : Nat),
        t.controlOut req.code value index data = .ok k → k ≠ data.length →
        write_control t req value index data
          = (.err (.transferTruncated k data.length),
             [.controlOut req.code value index data])) ∧
    (∀ (t : Transport) (req : Request) (value index : Nat) (data : List Nat) (k : Nat),
        t.controlOut req.code value index data = .ok k → k = data.length →
        write_control t req value index data
          = (.ok (), [.controlOut req.code value index data])) := by
  refine ⟨?_, ?_, ?_, ?_⟩
  · intro t req value index n buf h1 h2
    unfold read_control
    rw [h1]
    dsimp only
    rw [if_pos h2]
  · intro t req value index n buf h1 h2
    unfold read_control
    rw [h1]
    dsimp only
    rw [if_neg (by omega)]
  · intro t req value index data k h1 h2
    unfold write_control
    rw [h1]
    dsimp only
    rw [if_pos h2]
  · intro t req value index data k h1 h2
    unfold write_control
    rw [h1]
    dsimp only
    rw [if_neg (by omega)]

/-- Witness for `control_transfer_length_check`: a 3-byte answer to a
4-byte request in both directions, and exact-length transfers. -/
theorem control_transfer_length_check_witness :
    read_control (shortTransport 3) .boardIdRead 0 0 4
      = (.err (.transferTruncated 3 4), [.controlIn 14 0 0 4]) ∧
    write_control (shortTransport 3) .setFreq 0 0 [9, 9, 9, 9]
      = (.err (.transferTruncated 3 4), [.controlOut 16 0 0 [9, 9, 9, 9]]) ∧
    read_control okTransport .boardIdRead 0 0 1 = (.ok [1], [.controlIn 14 0 0 1]) ∧
    write_control okTransport .reset 0 0 [] = (.ok (), [.controlOut 30 0 0 []]) :=
  ⟨control_transfer_length_check.1 (shortTransport 3) .boardIdRead 0 0 4 [1, 1, 1]
    rfl (by decide),
   control_transfer_length_check.2.2.1 (shortTransport 3) .setFreq 0 0 [9, 9, 9, 9] 3
    rfl (by decide),
   control_transfer_length_check.2.1 okTransport .boardIdRead 0 0 1 [1] rfl (by decide),
   control_transfer_length_check.2.2.2 okTransport .reset 0 0 [] 0 rfl (by decide)⟩

/-- C7 counterexample: an IN-direction length mismatch and an
OUT-direction length mismatch with the same counts produce the identical
error value `TransferTruncated{actual: 3, expected: 4}` — the error
carries no direction field, contrary to `Transfer{direction, actual,
expected}`. -/
theorem transfer_error_has_no_direction :
    (read_control (shortTransport 3) .versionStringRead 0 0 4).1
      = .err (.transferTruncated 3 4) ∧
    (write_control (shortTransport 3) .setTransceiverMode 1 0 [0, 0, 0, 0]).1
      = .err (.transferTruncated 3 4) :=
  ⟨by decide, by decide⟩

/-- With all three components below 256 (`u8` fields), `version_to_u32`
is the base-256 packing of the triple. -/
theorem version_to_u32_eq (a b c : Nat) (hb : b < 256) (hc : c < 256) :
    version_to_u32 ⟨a, b, c⟩ = a * 65536 + b * 256 + c := by
  unfold version_to_u32
  dsimp only
  rw [Nat.shiftLeft_eq, Nat.shiftLeft_eq]
  have p8 : (2 : Nat) ^ 8 = 256 := rfl
  have p16 : (2 : Nat) ^ 16 = 65536 := rfl
  have h1 : 2 ^ 16 * a + b * 2 ^ 8 = 2 ^ 16 * a ||| b * 2 ^ 8 :=
    Nat.mul_add_lt_is_or (by rw [p8, p16]; omega) a
  calc a * 2 ^ 16 ||| b * 2 ^ 8 ||| c
      = (2 ^ 16 * a ||| b * 2 ^ 8) ||| c := by rw [Nat.mul_comm a]
    _ = (2 ^ 16 * a + b * 2 ^ 8) ||| c := by rw [h1]
    _ = 2 ^ 8 * (2 ^ 8 * a + b) ||| c := by
        rw [show 2 ^ 16 * a + b * 2 ^ 8 = 2 ^ 8 * (2 ^ 8 * a + b) from by ring]
    _ = 2 ^ 8 * (2 ^ 8 * a + b) + c := (Nat.mul_add_lt_is_or (by omega) _).symm
    _ = a * 65536 + b * 256 + c := by rw [p8]; ring

/-- `check_api_version` succeeds exactly when the packed device version is
at least the packed minimum. -/
theorem check_api_version_ok_iff (dev min : UsbVersion) :
    check_api_version dev min = Except.ok ()
      ↔ version_to_u32 min ≤ version_to_u32 dev := by
  unfold check_api_version
  by_cases h : version_to_u32 dev ≥ version_to_u32 min
  · rw [if_pos h]
    simpa using h
  · rw [if_neg h]
    exact iff_of_false (fun hcon => Except.noConfusion hcon) h

/-- **C8** (amended): `check_api_version(min)` succeeds exactly when the
device triple is at least `min` in lexicographic order (components being
`u8`), and otherwise yields `NoApi{device, min}`; it performs no I/O, and
`reset` issues the `Reset` request only after the check passes.  The BCD
field `0x0102` decodes to version 1.0.2 (per `0xJJMN`), so `reset` is
gated on firmware ≥ 1.0.2. -/
theorem api_version_lex_and_bcd :
    (∀ dev min : UsbVersion,
        dev.major < 256 → dev.minor < 256 → dev.sub_minor < 256 →
        min.major < 256 → min.minor < 256 → min.sub_minor < 256 →
        (check_api_version dev min = .ok () ↔
          (min.major < dev.major ∨
            (min.major = dev.major ∧
              (min.minor < dev.minor ∨
                (min.minor = dev.minor ∧ min.sub_minor ≤ dev.sub_minor)))))) ∧
    (∀ dev min : UsbVersion, check_api_version dev min ≠ .ok () →
        check_api_version dev min = .error (.noApi dev min)) ∧
    UsbVersion.from_bcd 0x0102 = ⟨1, 0, 2⟩ ∧
    (∀ (t : Transport) (dev : UsbVersion),
        check_api_version dev (UsbVersion.from_bcd 0x0102)
          = .error (.noApi dev ⟨1, 0, 2⟩) →
        reset t dev = (.err (.noApi dev ⟨1, 0, 2⟩), [])) ∧
    (∀ dev : UsbVersion,
        check_api_version dev (UsbVersion.from_bcd 0x0102) = .ok () →
        reset okTransport dev = (.ok (), [.controlOut 30 0 0 []])) := by
  refine ⟨?_, ?_, by decide, ?_, ?_⟩
  · intro dev min h1 h2 h3 h4 h5 h6
    obtain ⟨a, b, c⟩ := dev
    obtain ⟨a2, b2, c2⟩ := min
    dsimp only at h1 h2 h3 h4 h5 h6 ⊢
    rw [check_api_version_ok_iff, version_to_u32_eq a b c h2 h3,
      version_to_u32_eq a2 b2 c2 h5 h6]
    constructor <;> intro h <;> omega
  · intro dev min h
    unfold check_api_version at h ⊢
    by_cases hge : version_to_u32 dev ≥ version_to_u32 min
    · rw [if_pos hge] at h
      exact absurd rfl h
    · rw [if_neg hge]
  · intro t dev h
    unfold reset
    rw [h]
  · intro dev h
    unfold reset
    rw [h]
    unfold write_control okTransport
    simp [Request.code]

/-- Witness for `api_version_lex_and_bcd`: device 1.2.0 against minimum
1.0.2 passes lexicographically, so `reset` issues the `Reset` request. -/
theorem api_version_lex_and_bcd_witness :
    check_api_version ⟨1, 2, 0⟩ ⟨1, 0, 2⟩ = .ok () ∧
    reset okTransport ⟨1, 2, 0⟩ = (.ok (), [.controlOut 30 0 0 []]) :=
  ⟨(api_version_lex_and_bcd.1 ⟨1, 2, 0⟩ ⟨1, 0, 2⟩ (by decide) (by decide) (by decide)
      (by decide) (by decide) (by decide)).mpr (by decide),
   api_version_lex_and_bcd.2.2.2.2 ⟨1, 2, 0⟩ rfl⟩

/-- C8 counterexample: `from_bcd 0x0102` is version 1.0.2, not the claimed
1.2.0, and a device at firmware 1.1.0 — below 1.2.0 — passes the reset
gate and issues the `Reset` request. -/
theorem bcd_0x0102_is_1_0_2 :
    UsbVersion.from_bcd 0x0102 = ⟨1, 0, 2⟩ ∧
    (⟨1, 0, 2⟩ : UsbVersion) ≠ ⟨1, 2, 0⟩ ∧
    reset okTransport ⟨1, 1, 0⟩ = (.ok (), [.controlOut 30 0 0 []]) :=
  ⟨by decide, by decide, by decide⟩

/-- **C9** (amended): fallible operations report failures as typed error
values — transport failures as `Transfer`, argument violations as
`Argument` — with these exceptions: the 512-byte streaming precondition
panics, `version()` panics on a failed transfer, and the gain setters
panic on a zero acknowledgement byte (while still reporting a failed
transfer as a typed error). -/
theorem error_propagation_policy :
    (∀ hz : Nat, set_freq failTransport hz
        = (.err .transfer, [.controlOut 16 0 0 (freq_params hz)])) ∧
    (∀ gain : Nat, gain ≤ 40 →
        set_lna_gain failTransport gain
          = (.err .transfer, [.controlIn 19 0 (gain &&& 0xFFF8) 1])) ∧
    (∀ mode : Mode, stop_tx failTransport mode
        = (.err .transfer, mode, [.controlOut 1 0 0 []])) ∧
    read failTransport .receive 512 = (.err .transfer, [.bulkIn 0x81 512]) ∧
    read okTransport .receive 5 = (.panicked "samples must be a multiple of 512", []) ∧
    version failTransport = (.panicked "transfer failed?", [.controlIn 15 0 0 64]) ∧
    set_lna_gain zeroAckTransport 0 = (.panicked "", [.controlIn 19 0 0 1]) ∧
    set_txvga_gain zeroAckTransport 0
      = (.panicked "What is this return value?", [.controlIn 21 0 0 1]) := by
  refine ⟨?_, ?_, ?_, by decide, by decide, by decide, by decide, by decide⟩
  · intro hz
    unfold set_freq write_control failTransport
    simp [Request.code]
  · intro gain h
    unfold set_lna_gain read_control failTransport
    rw [if_neg (by omega)]
    simp [Request.code]
  · intro mode
    rfl

/-- Witness for `error_propagation_policy` at gain 10. -/
theorem error_propagation_policy_witness :
    10 ≤ 40 ∧
    set_lna_gain failTransport 10 = (.err .transfer, [.controlIn 19 0 8 1]) :=
  ⟨by decide, by
    have := error_propagation_policy.2.1 10 (by decide)
    simpa using this⟩

/-- C9 counterexample: `version()` panics ("transfer failed?") on a failed
transfer, and `set_vga_gain` panics on a zero acknowledgement byte —
neither returns a typed error. -/
theorem version_and_gain_ack_panic :
    version failTransport = (.panicked "transfer failed?", [.controlIn 15 0 0 64]) ∧
    set_vga_gain zeroAckTransport 0
      = (.panicked "What is this return value?", [.controlIn 20 0 0 1]) :=
  ⟨by decide, by decide⟩

end HackRfOne
